import Mathlib

/-!
# Eznopot/udp : handshake/close registry protocol over datagrams

A shallow embedding of `src/server/udp_server.go` and `src/client/udp_client.go`.

* Package-level variables (`addrs`, `isServerClose`, `logger`, `instance`, `conn`,
  `isConnClose`) become fields of an explicit state that every function threads.
* Socket effects and callback invocations are appended to an event trace.
* The blocking reads (`ReadFrom`, `Read`) take their result from an input list, one
  element per call.
* `encoding/json` is outside the repository; `json.Marshal` and `json.Unmarshal` are the
  two fields of a `Json` parameter.
* The callbacks `handler` and `logger` are application code: their calls are recorded and
  they are taken to leave the package-level variables alone. One goroutine runs at a
  time.
-/

namespace Udp

/-- The bytes of a datagram (`[]byte`). -/
abbrev Bytes := List Nat

/-- Modelled from the spec: the declaration of `udp.Packet` lives in the package root, which
is not among the sources. The spec gives it two string fields, `Type` and `Data`; the
field `Type` is spelled `Type_` because `Type` is reserved in Lean. -/
structure Packet where
  Type_ : String
  Data : String
deriving DecidableEq, Repr

/-- The zero value of `udp.Packet`, what `var packet udp.Packet` holds. -/
def Packet.zero : Packet := ⟨"", ""⟩

/-- The two functions of `encoding/json` the program calls.
`Marshal p` is `json.Marshal(p)`: the bytes, or an error.
`Unmarshal buf p` is `json.Unmarshal(buf, &p)`: what `p` holds after the call, and the
returned error if there is one. -/
structure Json where
  Marshal : Packet → Except String Bytes
  Unmarshal : Bytes → Packet → Packet × Option String

/-- A `net.Addr` value, known through the result of its `String()` method. -/
structure Addr where
  str : String
deriving DecidableEq, Repr

/-- A non-nil value of type `*net.Addr`. `ptr` is the identity of the pointer (what `==`
and `!=` on two pointers compare) and `val` is the pointee `*p`, so that
`(*p).String()` is `p.val.str`. -/
structure AddrPtr where
  ptr : Nat
  val : Addr
deriving DecidableEq, Repr

/-! ## Server -/

/-- What the server does to the outside world, in the order it happens. -/
inductive ServerEvent where
  /-- The call `(*instance).WriteTo(res, dest)`; its results are discarded by the code. -/
  | writeTo (res : Bytes) (dest : Addr)
  /-- The call `handler(*instance, addr, packet)`. -/
  | handler (addr : AddrPtr) (packet : Packet)
  /-- The call `logger(string(res))`; the argument is kept as its bytes. -/
  | logger (res : Bytes)
  /-- A line printed by `println` or `fmt.Println`: the operands. -/
  | print (operands : List String)
  /-- The deferred `wg.Done()`. -/
  | wgDone
deriving DecidableEq, Repr

/-- The package-level variables of `udp_server`. `instance_` is `instance` (nil or a
socket handle), `logger` says whether `logger != nil`. -/
structure ServerState where
  instance_ : Option Nat
  addrs : List AddrPtr
  isServerClose : Bool
  logger : Bool
deriving DecidableEq, Repr

/-- The `case "close"` loop of `serverPacketSystemHandler`: `range` walks the registry as
it was when the loop started, `i` is the index and the entries still to visit are the last
argument. On the first entry whose `String()` equals the sender's the registry becomes
`append(addrs[:i], addrs[i+1:]...)` and the loop breaks. -/
def closeRange (addr : AddrPtr) (addrs : List AddrPtr) : Nat → List AddrPtr → List AddrPtr
  | _, [] => addrs
  | i, tmpAddr :: rest =>
    if addr.val.str = tmpAddr.val.str then addrs.take i ++ addrs.drop (i + 1)
    else closeRange addr addrs (i + 1) rest

/-- The function `serverPacketSystemHandler(data, addr)`, acting on the global `addrs`:
the new registry and the returned integer. A nil `addrs` is the empty list, and the
`addrs == nil` branch of `"handshake"` builds the one-element slice. -/
def serverPacketSystemHandler (data : String) (addr : AddrPtr) (addrs : List AddrPtr) :
    List AddrPtr × Int :=
  if data = "handshake" then
    if addrs = [] then ([] ++ [addr], 0)
    else (addrs ++ [addr], 0)
  else if data = "close" then (closeRange addr addrs 0 addrs, 0)
  else (addrs, 0)

/-- The function `GetAllClientInfo()`: the `String()` of every registry entry, in order. -/
def GetAllClientInfo (addrs : List AddrPtr) : List String :=
  addrs.foldl (fun list addr => list ++ [addr.val.str]) []

/-- The function `SendToAllClient(str, packetType)`: the datagrams written, or the
message of `log.Fatal`, which ends the process. -/
def SendToAllClient (J : Json) (s : ServerState) (str packetType : String) :
    Except String (List ServerEvent) :=
  match s.instance_ with
  | none => .error "instance of UDP server is null"
  | some _ =>
    let toSend : Packet := { Type_ := packetType, Data := str }
    match J.Marshal toSend with
    | .error err => .error ("error on json:" ++ err)
    | .ok res => .ok (s.addrs.foldl (fun out addr => out ++ [ServerEvent.writeTo res addr.val]) [])

/-- The function `SendToAllExcludingItselfClient(str, packetType, addr)`. The loop compares
the two pointers (`addr != elemAddr`) and writes to `*addr`. -/
def SendToAllExcludingItselfClient (J : Json) (s : ServerState) (str packetType : String)
    (addr : AddrPtr) : Except String (List ServerEvent) :=
  match s.instance_ with
  | none => .error "instance of UDP server is null"
  | some _ =>
    let toSend : Packet := { Type_ := packetType, Data := str }
    match J.Marshal toSend with
    | .error err => .error ("error on json:" ++ err)
    | .ok res =>
      .ok (s.addrs.foldl
        (fun out elemAddr =>
          if addr.ptr ≠ elemAddr.ptr then out ++ [ServerEvent.writeTo res addr.val] else out) [])

/-- What one call of `(*instance).ReadFrom(buf)` delivers: a datagram and the pointer
`&addr` to its sender, or an error. -/
inductive ReadFrom where
  | ok (datagram : Bytes) (addr : AddrPtr)
  | err (msg : String)
deriving DecidableEq, Repr

/-- The function `readFromSocket()`: the returned packet, address (`none` is nil) and
error (`none` is nil), and what it printed. The buffer holds 2048 bytes, so `buf[:len]`
is at most the first 2048 bytes of the datagram. The error of `json.Unmarshal` is
discarded, as in the source. -/
def readFromSocket (J : Json) (s : ServerState) (r : ReadFrom) :
    Packet × Option AddrPtr × Option String × List ServerEvent :=
  let packet := Packet.zero
  if s.isServerClose then (packet, none, none, [])
  else
    match r with
    | .err msg => (packet, none, some msg, [.print ["One reading buff", msg]])
    | .ok datagram addr =>
      let buf := datagram.take 2048
      ((J.Unmarshal buf packet).1, some addr, none, [])

/-- How one pass through a loop body ends. -/
inductive Flow where
  /-- The next iteration (end of the body, or `continue`). -/
  | next
  /-- The statement `break`. -/
  | brk
  /-- The statement `return`. -/
  | ret
  /-- The call `log.Fatal`, which ends the process, with its message. -/
  | fatal (msg : String)
  /-- A nil address with a nil error while the server is open; `readFromSocket` never
  returns that (see `listenerBody_reachable`). -/
  | nilAddr
deriving DecidableEq, Repr

/-- One pass through the body of the `for` loop of `listener`, entered with
`isServerClose` false, on the result `r` of the blocking read: the new state, the
events and how the pass ends. The callback `handler` is application code; its call is
recorded. -/
def listenerBody (J : Json) (s : ServerState) (r : ReadFrom) :
    ServerState × List ServerEvent × Flow :=
  match readFromSocket J s r with
  | (packet, addr, err, printed) =>
    if s.isServerClose then (s, printed, .brk)
    else
      match err, addr with
      | some msg, _ => (s, printed ++ [.print ["error on socket", msg]], .next)
      | none, none => (s, printed, .nilAddr)
      | none, some addr =>
        let logged : Option (List ServerEvent) :=
          if s.logger then
            match J.Marshal packet with
            | .error _ => none
            | .ok res => some [.logger res]
          else some []
        match logged with
        | none => (s, printed, .ret)
        | some lines =>
          if packet.Type_ = "system" then
            let out := serverPacketSystemHandler packet.Data addr s.addrs
            if out.2 = 1 then ({ s with addrs := out.1 }, printed ++ lines, .ret)
            else ({ s with addrs := out.1 }, printed ++ lines ++ [.handler addr packet], .next)
          else (s, printed ++ lines ++ [.handler addr packet], .next)

/-- How a receive loop stands once the reads it was given are used up. -/
inductive LoopEnd where
  /-- The function returned. -/
  | returned
  /-- The loop is blocked in its next read. -/
  | blocked
  /-- The process was ended by `log.Fatal`. -/
  | fatal (msg : String)
deriving DecidableEq, Repr

/-- The function `listener(wg, handler)` run on the successive results of the blocking
read. The deferred `wg.Done()` runs whenever the function returns. -/
def listener (J : Json) : ServerState → List ReadFrom → ServerState × List ServerEvent × LoopEnd
  | s, [] => if s.isServerClose then (s, [.wgDone], .returned) else (s, [], .blocked)
  | s, r :: rest =>
    if s.isServerClose then (s, [.wgDone], .returned)
    else
      match listenerBody J s r with
      | (s1, events, .next) =>
        match listener J s1 rest with
        | (s2, more, e) => (s2, events ++ more, e)
      | (s1, events, .fatal msg) => (s1, events, .fatal msg)
      | (s1, events, _) => (s1, events ++ [.wgDone], .returned)

/-- The server control dispatcher applied to a sequence of control packets, each given by
its verb (`packet.Data`) and its sender, starting from the registry `addrs`. -/
def dispatchAll : List AddrPtr → List (String × AddrPtr) → List AddrPtr
  | addrs, [] => addrs
  | addrs, (data, addr) :: rest => dispatchAll (serverPacketSystemHandler data addr addrs).1 rest

/-- No `"handshake"` in the sequence comes from an address whose `String()` is in the
registry at that moment: every client handshakes once per connection. -/
def singleHandshake : List AddrPtr → List (String × AddrPtr) → Bool
  | _, [] => true
  | addrs, (data, addr) :: rest =>
    (data != "handshake" || !(GetAllClientInfo addrs).contains addr.val.str)
      && singleHandshake (serverPacketSystemHandler data addr addrs).1 rest

/-! ## Client -/

/-- What the client does to the outside world, in the order it happens. -/
inductive ClientEvent where
  /-- The call `conn.Write(bytes)`. -/
  | write (bytes : Bytes)
  /-- The call `conn.Close()`. -/
  | close
  /-- The call `handler(packet)`. -/
  | handler (packet : Packet)
  /-- A line printed by `println`: the operands. -/
  | print (operands : List String)
  /-- The call `wg.Done()`. -/
  | wgDone
deriving DecidableEq, Repr

/-- The package-level variable `isConnClose` of `udp_client`; `conn` is the connection
made by `CreateConnection`. -/
structure ClientState where
  isConnClose : Bool
deriving DecidableEq, Repr

/-- The function `CloseConnection()`: the new state and the events, or the message of
`log.Fatal`. The deferred `conn.Close()` runs last. -/
def CloseConnection (J : Json) (_s : ClientState) : Except String (ClientState × List ClientEvent) :=
  let packet : Packet := { Data := "close", Type_ := "system" }
  match J.Marshal packet with
  | .error err => .error ("error on json:" ++ err)
  | .ok bytes => .ok ({ isConnClose := true }, [.write bytes, .close])

/-- The function `clientPacketSystemHandler(data)`: the new state, the events and the
returned integer, or the message of `log.Fatal`. -/
def clientPacketSystemHandler (J : Json) (data : String) (s : ClientState) :
    Except String (ClientState × List ClientEvent × Int) :=
  if data = "close" then
    match CloseConnection J s with
    | .error msg => .error msg
    | .ok (s1, events) => .ok (s1, events, 0)
  else .ok (s, [], 0)

/-- What one call of `conn.Read(received)` delivers: a datagram, or an error. -/
inductive ConnRead where
  | ok (datagram : Bytes)
  | err (msg : String)
deriving DecidableEq, Repr

/-- The function `readFromConn()`: the returned packet and error (`none` is nil) and what
it printed, or the message of `log.Fatal` when `json.Unmarshal` fails. -/
def readFromConn (J : Json) (s : ClientState) (r : ConnRead) :
    Except String (Packet × Option String × List ClientEvent) :=
  let packet := Packet.zero
  if s.isConnClose then .ok (packet, none, [])
  else
    match r with
    | .err msg => .ok (packet, some msg, [.print ["Read data failed:", msg]])
    | .ok datagram =>
      let received := datagram.take 2048
      match J.Unmarshal received packet with
      | (_, some err) => .error ("error on json:" ++ err)
      | (packet, none) => .ok (packet, none, [])

/-- One pass through the body of the `for` loop of `Receive`, entered with `isConnClose`
false, on the result `r` of the blocking read. -/
def ReceiveBody (J : Json) (s : ClientState) (r : ConnRead) :
    ClientState × List ClientEvent × Flow :=
  match readFromConn J s r with
  | .error msg => (s, [], .fatal msg)
  | .ok (packet, err, printed) =>
    if s.isConnClose then (s, printed, .brk)
    else if err.isSome then (s, printed, .next)
    else if packet.Type_ = "system" then
      match clientPacketSystemHandler J packet.Data s with
      | .error msg => (s, printed, .fatal msg)
      | .ok (s1, events, out) =>
        if out = 1 then (s1, printed ++ events, .ret)
        else (s1, printed ++ events ++ [.handler packet], .next)
    else (s, printed ++ [.handler packet], .next)

/-- The function `Receive(wg, handler)` run on the successive results of the blocking
read; `wg` says whether `wg != nil`. `wg.Done()` follows the loop, so a `return` from
inside the loop skips it. -/
def Receive (J : Json) (wg : Bool) :
    ClientState → List ConnRead → ClientState × List ClientEvent × LoopEnd
  | s, [] =>
    if s.isConnClose then (s, if wg then [.wgDone] else [], .returned) else (s, [], .blocked)
  | s, r :: rest =>
    if s.isConnClose then (s, if wg then [.wgDone] else [], .returned)
    else
      match ReceiveBody J s r with
      | (s1, events, .next) =>
        match Receive J wg s1 rest with
        | (s2, more, e) => (s2, events ++ more, e)
      | (s1, events, .brk) => (s1, events ++ (if wg then [.wgDone] else []), .returned)
      | (s1, events, .fatal msg) => (s1, events, .fatal msg)
      | (s1, events, _) => (s1, events, .returned)

/-! ## Sample values of `encoding/json` -/

/-- The bytes of an ASCII string. -/
def ascii (s : String) : Bytes := s.toList.map Char.toNat

/-- The datagram `{"Type":"system","Data":"handshake"}`. -/
def handshakeDatagram : Bytes := ascii "\x7b\"Type\":\"system\",\"Data\":\"handshake\"\x7d"

/-- The datagram `{"Type":"system","Data":"close"}`. -/
def closeDatagram : Bytes := ascii "\x7b\"Type\":\"system\",\"Data\":\"close\"\x7d"

/-- The datagram `{"Type":"chat","Data":"hello"}`. -/
def chatDatagram : Bytes := ascii "\x7b\"Type\":\"chat\",\"Data\":\"hello\"\x7d"

/-- The datagram `{"Type":"system","Data":"handshake","Type":1}`: an object whose last
member gives the string field `Type` a number. -/
def mistypedDatagram : Bytes :=
  ascii "\x7b\"Type\":\"system\",\"Data\":\"handshake\",\"Type\":1\x7d"

/-- The datagram `not json`. -/
def garbageDatagram : Bytes := ascii "not json"

/-- The values `encoding/json` has on the inputs the examples use.

`Marshal` writes `{"Type":"...","Data":"..."}`, which is what `json.Marshal` gives for a
struct of the two string fields whenever neither string needs escaping.

`Unmarshal` is a table over the sample datagrams. On a well-formed object the fields are
stored and the error is nil. On `mistypedDatagram` the members are stored in order; the
number does not fit the string field, so that member is skipped and the call returns an
`UnmarshalTypeError` while the destination keeps `system` and `handshake` (the package
documentation: "Unmarshal skips that field and completes the unmarshaling as best it
can"). `garbageDatagram` is not valid JSON: the destination is left as it was and a
syntax error is returned. An input outside the table is used nowhere; it gets the answer
for the empty datagram. -/
def sampleJson : Json where
  Marshal := fun p =>
    .ok (ascii ("\x7b\"Type\":\"" ++ p.Type_ ++ "\",\"Data\":\"" ++ p.Data ++ "\"\x7d"))
  Unmarshal := fun buf p =>
    if buf = handshakeDatagram then (⟨"system", "handshake"⟩, none)
    else if buf = closeDatagram then (⟨"system", "close"⟩, none)
    else if buf = chatDatagram then (⟨"chat", "hello"⟩, none)
    else if buf = mistypedDatagram then
      (⟨"system", "handshake"⟩,
        some "json: cannot unmarshal number into Go struct field Packet.Type of type string")
    else if buf = garbageDatagram then
      (p, some "invalid character 'o' in literal null (expecting 'u')")
    else (p, some "unexpected end of JSON input")

/-! ### The registry -/

theorem closeRange_eq_eraseP (addr : AddrPtr) (pre rest : List AddrPtr) :
    closeRange addr (pre ++ rest) pre.length rest =
      pre ++ rest.eraseP (fun x => decide (addr.val.str = x.val.str)) := by
  induction rest generalizing pre with
  | nil => simp [closeRange]
  | cons x rest ih =>
    by_cases h : addr.val.str = x.val.str
    · simp [closeRange, h, List.eraseP_cons]
    · have step := ih (pre ++ [x])
      simp only [List.append_assoc, List.singleton_append, List.length_append,
        List.length_singleton] at step
      simp [closeRange, h, step, List.eraseP_cons]

theorem close_eq_eraseP (addr : AddrPtr) (addrs : List AddrPtr) :
    (serverPacketSystemHandler "close" addr addrs).1 =
      addrs.eraseP (fun x => decide (addr.val.str = x.val.str)) := by
  have h := closeRange_eq_eraseP addr [] addrs
  simpa [serverPacketSystemHandler] using h

theorem GetAllClientInfo_eq_map (addrs : List AddrPtr) :
    GetAllClientInfo addrs = addrs.map (fun a => a.val.str) := by
  have h : ∀ (acc : List String) (l : List AddrPtr),
      l.foldl (fun list addr => list ++ [addr.val.str]) acc = acc ++ l.map (fun a => a.val.str) := by
    intro acc l
    induction l generalizing acc with
    | nil => simp
    | cons x l ih => simp [ih]
  simpa [GetAllClientInfo] using h [] addrs

theorem handler_keeps_nodup (data : String) (addr : AddrPtr) (addrs : List AddrPtr)
    (hnodup : (GetAllClientInfo addrs).Nodup)
    (hfresh : data = "handshake" → addr.val.str ∉ GetAllClientInfo addrs) :
    (GetAllClientInfo (serverPacketSystemHandler data addr addrs).1).Nodup := by
  by_cases h1 : data = "handshake"
  · subst h1
    have hnew : (serverPacketSystemHandler "handshake" addr addrs).1 = addrs ++ [addr] := by
      by_cases hnil : addrs = [] <;> simp [serverPacketSystemHandler, hnil]
    rw [hnew]
    have hf := hfresh rfl
    rw [GetAllClientInfo_eq_map] at hnodup hf ⊢
    rw [List.map_append, List.nodup_append]
    refine ⟨hnodup, by simp, ?_⟩
    intro x hx hy
    simp only [List.map_cons, List.map_nil, List.mem_singleton] at hy
    subst hy
    exact hf hx
  · by_cases h2 : data = "close"
    · subst h2
      rw [close_eq_eraseP]
      rw [GetAllClientInfo_eq_map] at hnodup ⊢
      exact hnodup.sublist ((List.eraseP_sublist addrs).map _)
    · simpa [serverPacketSystemHandler, h1, h2] using hnodup

theorem dispatchAll_keeps_nodup (packets : List (String × AddrPtr)) (addrs : List AddrPtr)
    (hnodup : (GetAllClientInfo addrs).Nodup)
    (hsingle : singleHandshake addrs packets = true) :
    (GetAllClientInfo (dispatchAll addrs packets)).Nodup := by
  induction packets generalizing addrs with
  | nil => simpa [dispatchAll] using hnodup
  | cons p rest ih =>
    obtain ⟨data, addr⟩ := p
    simp only [singleHandshake, Bool.and_eq_true, Bool.or_eq_true, bne_iff_ne, ne_eq,
      Bool.not_eq_true', List.contains_eq_any_beq, List.any_eq_false, beq_iff_eq] at hsingle
    simp only [dispatchAll]
    apply ih _ _ hsingle.2
    apply handler_keeps_nodup _ _ _ hnodup
    intro hdata
    rcases hsingle.1 with h | h
    · exact absurd hdata h
    · intro hmem
      exact h _ hmem rfl

theorem close_single_occurrence (a : AddrPtr) (addrs : List AddrPtr)
    (hone : (GetAllClientInfo addrs).count a.val.str = 1) :
    a.val.str ∉ GetAllClientInfo (serverPacketSystemHandler "close" a addrs).1 := by
  rw [close_eq_eraseP]
  rw [GetAllClientInfo_eq_map] at hone ⊢
  induction addrs with
  | nil => simp
  | cons x l ih =>
    by_cases hx : a.val.str = x.val.str
    · have hzero : (l.map (fun b => b.val.str)).count a.val.str = 0 := by
        simpa [List.count_cons, hx] using hone
      have hnot : a.val.str ∉ l.map (fun b => b.val.str) := List.count_eq_zero.mp hzero
      simpa [List.eraseP_cons, hx] using hnot
    · have hl : (l.map (fun b => b.val.str)).count a.val.str = 1 := by
        have hne : ¬ x.val.str = a.val.str := fun h => hx h.symm
        simpa [List.count_cons, hne] using hone
      have hrest := ih hl
      have hcons : List.eraseP (fun y => decide (a.val.str = y.val.str)) (x :: l) =
          x :: List.eraseP (fun y => decide (a.val.str = y.val.str)) l := by
        simp [List.eraseP_cons, hx]
      rw [hcons, List.map_cons, List.mem_cons, not_or]
      exact ⟨hx, hrest⟩

theorem writeTo_foldl (res : Bytes) (addrs : List AddrPtr) (acc : List ServerEvent) :
    addrs.foldl (fun out addr => out ++ [ServerEvent.writeTo res addr.val]) acc =
      acc ++ addrs.map (fun addr => ServerEvent.writeTo res addr.val) := by
  induction addrs generalizing acc with
  | nil => simp
  | cons x l ih => simp [ih]

/-- C1: on the verb `"close"` from sender `a` the server control dispatcher removes the
first registry entry whose `String()` equals that of `a` and keeps every other entry in
its place (whenever the registry splits as `pre ++ x :: post` with no match in `pre` and
a match at `x`, the new registry is `pre ++ post`); when no entry matches, the registry
is unchanged. The function returns 0. -/
theorem close_removes_first_match (addrs : List AddrPtr) (a : AddrPtr) :
    (∀ pre x post, addrs = pre ++ x :: post → (∀ y ∈ pre, y.val.str ≠ a.val.str) →
        x.val.str = a.val.str →
        (serverPacketSystemHandler "close" a addrs).1 = pre ++ post) ∧
    ((∀ y ∈ addrs, y.val.str ≠ a.val.str) →
        (serverPacketSystemHandler "close" a addrs).1 = addrs) ∧
    (serverPacketSystemHandler "close" a addrs).2 = 0 := by
  refine ⟨?_, ?_, ?_⟩
  · intro pre x post hsplit hpre hx
    rw [close_eq_eraseP, hsplit, List.eraseP_append_right]
    · simp [List.eraseP_cons, hx]
    · intro y hy
      have := hpre y hy
      simpa using fun h => this h.symm
  · intro hnone
    rw [close_eq_eraseP]
    apply List.eraseP_of_forall_not
    intro y hy
    have := hnone y hy
    simpa using fun h => this h.symm
  · simp [serverPacketSystemHandler]

/-- Witness for C1: sender `10.0.0.2:7` closes while registered second and third; the
second entry goes, the first and third stay. -/
theorem close_removes_first_match_witness :
    (serverPacketSystemHandler "close" ⟨9, ⟨"10.0.0.2:7"⟩⟩
        [⟨1, ⟨"10.0.0.1:7"⟩⟩, ⟨2, ⟨"10.0.0.2:7"⟩⟩, ⟨3, ⟨"10.0.0.2:7"⟩⟩]).1 =
      [⟨1, ⟨"10.0.0.1:7"⟩⟩] ++ [⟨3, ⟨"10.0.0.2:7"⟩⟩] :=
  (close_removes_first_match
      [⟨1, ⟨"10.0.0.1:7"⟩⟩, ⟨2, ⟨"10.0.0.2:7"⟩⟩, ⟨3, ⟨"10.0.0.2:7"⟩⟩] ⟨9, ⟨"10.0.0.2:7"⟩⟩).1
    [⟨1, ⟨"10.0.0.1:7"⟩⟩] ⟨2, ⟨"10.0.0.2:7"⟩⟩ [⟨3, ⟨"10.0.0.2:7"⟩⟩] rfl (by decide) rfl

/-- C2: on the verb `"handshake"` from sender `a` the new registry is the old one with
`a` appended, for every old registry (the empty one and one that already holds `a`
included), so the length grows by one; on every verb other than `"handshake"` and
`"close"` the registry is unchanged. -/
theorem handshake_appends (addrs : List AddrPtr) (a : AddrPtr) :
    (serverPacketSystemHandler "handshake" a addrs).1 = addrs ++ [a] ∧
    (serverPacketSystemHandler "handshake" a addrs).1.length = addrs.length + 1 ∧
    (∀ data : String, data ≠ "handshake" → data ≠ "close" →
        (serverPacketSystemHandler data a addrs).1 = addrs) := by
  have h : (serverPacketSystemHandler "handshake" a addrs).1 = addrs ++ [a] := by
    by_cases hnil : addrs = [] <;> simp [serverPacketSystemHandler, hnil]
  refine ⟨h, ?_, ?_⟩
  · rw [h]; simp
  · intro data h1 h2
    simp [serverPacketSystemHandler, h1, h2]

/-- Witness for C2: `10.0.0.1:7` handshakes a second time and is appended again; the verb
`"ping"` changes nothing. -/
theorem handshake_appends_witness :
    (serverPacketSystemHandler "handshake" ⟨2, ⟨"10.0.0.1:7"⟩⟩ [⟨1, ⟨"10.0.0.1:7"⟩⟩]).1 =
        [⟨1, ⟨"10.0.0.1:7"⟩⟩] ++ [⟨2, ⟨"10.0.0.1:7"⟩⟩] ∧
    (serverPacketSystemHandler "ping" ⟨2, ⟨"10.0.0.1:7"⟩⟩ [⟨1, ⟨"10.0.0.1:7"⟩⟩]).1 =
        [⟨1, ⟨"10.0.0.1:7"⟩⟩] :=
  ⟨(handshake_appends [⟨1, ⟨"10.0.0.1:7"⟩⟩] ⟨2, ⟨"10.0.0.1:7"⟩⟩).1,
    (handshake_appends [⟨1, ⟨"10.0.0.1:7"⟩⟩] ⟨2, ⟨"10.0.0.1:7"⟩⟩).2.2 "ping"
      (by decide) (by decide)⟩

/-- C3: with a non-nil listener and a packet `{Type: packetType, Data: str}` that
`json.Marshal` encodes to `res`, `SendToAllClient(str, packetType)` issues one `WriteTo`
per registry entry, in registry order, each to that entry's address and each carrying
`res`; their number is the size of the registry. -/
theorem SendToAllClient_datagrams (J : Json) (s : ServerState) (sock : Nat)
    (str packetType : String) (res : Bytes)
    (hinst : s.instance_ = some sock)
    (hres : J.Marshal { Type_ := packetType, Data := str } = .ok res) :
    SendToAllClient J s str packetType =
        .ok (s.addrs.map (fun addr => ServerEvent.writeTo res addr.val)) ∧
    (s.addrs.map (fun addr => ServerEvent.writeTo res addr.val)).length = s.addrs.length := by
  constructor
  · simp [SendToAllClient, hinst, hres, writeTo_foldl]
  · simp

/-- Witness for C3: a registry of two peers and the packet `{Type: "chat", Data: "hello"}`. -/
theorem SendToAllClient_datagrams_witness :
    SendToAllClient sampleJson ⟨some 1, [⟨1, ⟨"10.0.0.1:7"⟩⟩, ⟨2, ⟨"10.0.0.2:7"⟩⟩], false, false⟩
        "hello" "chat" =
      .ok [.writeTo chatDatagram ⟨"10.0.0.1:7"⟩, .writeTo chatDatagram ⟨"10.0.0.2:7"⟩] :=
  (SendToAllClient_datagrams sampleJson
    ⟨some 1, [⟨1, ⟨"10.0.0.1:7"⟩⟩, ⟨2, ⟨"10.0.0.2:7"⟩⟩], false, false⟩ 1 "hello" "chat"
    chatDatagram rfl rfl).1

/-- C4: evaluation at a registry `[p1, p2]` with `p1` itself excluded. The claim asks for
one datagram to `p2` and none to the excluded address; the code writes one datagram,
because of `p2`, and sends it to the excluded address `*addr`. -/
theorem SendToAllExcludingItselfClient_writes_to_excluded :
    SendToAllExcludingItselfClient sampleJson
        ⟨some 1, [⟨1, ⟨"10.0.0.1:7"⟩⟩, ⟨2, ⟨"10.0.0.2:7"⟩⟩], false, false⟩
        "hello" "chat" ⟨1, ⟨"10.0.0.1:7"⟩⟩ =
      .ok [.writeTo chatDatagram ⟨"10.0.0.1:7"⟩] := by
  rfl

/-- C5: evaluation of one pass of the server loop at two datagrams from `10.0.0.1:7`.
On the control packet `{"Type":"system","Data":"handshake"}` the dispatcher registers the
sender and the handler is then called with that packet; on `not json`, which
`json.Unmarshal` rejects, the handler is called with the zero packet. -/
theorem listenerBody_forwards_control_and_undecoded :
    listenerBody sampleJson ⟨some 1, [], false, false⟩
        (.ok handshakeDatagram ⟨1, ⟨"10.0.0.1:7"⟩⟩) =
      (⟨some 1, [⟨1, ⟨"10.0.0.1:7"⟩⟩], false, false⟩,
        [.handler ⟨1, ⟨"10.0.0.1:7"⟩⟩ ⟨"system", "handshake"⟩], .next) ∧
    (sampleJson.Unmarshal (garbageDatagram.take 2048) Packet.zero).2 ≠ none ∧
    listenerBody sampleJson ⟨some 1, [], false, false⟩
        (.ok garbageDatagram ⟨1, ⟨"10.0.0.1:7"⟩⟩) =
      (⟨some 1, [], false, false⟩, [.handler ⟨1, ⟨"10.0.0.1:7"⟩⟩ ⟨"", ""⟩], .next) := by
  refine ⟨by rfl, by decide, by rfl⟩

/-- C6: evaluation of the client loop at the control packet
`{"Type":"system","Data":"close"}`. The session is closed (the close packet is written,
the flag set, the connection closed), then the handler is called with the control
packet, and only then the loop ends. -/
theorem Receive_forwards_control_close :
    Receive sampleJson true ⟨false⟩ [.ok closeDatagram] =
      (⟨true⟩,
        [.write closeDatagram, .close, .handler ⟨"system", "close"⟩, .wgDone],
        .returned) := by
  rfl

/-- C7, the claim as stated fails: two handshakes from `10.0.0.1:7` (two reads, so two
pointers) leave two entries with the same `String()`. -/
theorem duplicate_handshake_breaks_uniqueness :
    ¬ (GetAllClientInfo (dispatchAll []
        [("handshake", ⟨1, ⟨"10.0.0.1:7"⟩⟩), ("handshake", ⟨2, ⟨"10.0.0.1:7"⟩⟩)])).Nodup := by
  decide

/-- C7, amended: starting from the empty registry, after the server control dispatcher
has processed a finite sequence of control packets in which no `"handshake"` comes from
an address whose `String()` is in the registry at that moment, no two registry entries
have equal `String()` forms. -/
theorem registry_unique_under_single_handshake (packets : List (String × AddrPtr))
    (hsingle : singleHandshake [] packets = true) :
    (GetAllClientInfo (dispatchAll [] packets)).Nodup :=
  dispatchAll_keeps_nodup packets [] (by simp [GetAllClientInfo]) hsingle

/-- Witness for C7: two clients handshake, the first closes and handshakes again. -/
theorem registry_unique_under_single_handshake_witness :
    (GetAllClientInfo (dispatchAll []
      [("handshake", ⟨1, ⟨"10.0.0.1:7"⟩⟩), ("handshake", ⟨2, ⟨"10.0.0.2:7"⟩⟩),
        ("close", ⟨3, ⟨"10.0.0.1:7"⟩⟩), ("handshake", ⟨4, ⟨"10.0.0.1:7"⟩⟩)])).Nodup :=
  registry_unique_under_single_handshake
    [("handshake", ⟨1, ⟨"10.0.0.1:7"⟩⟩), ("handshake", ⟨2, ⟨"10.0.0.2:7"⟩⟩),
      ("close", ⟨3, ⟨"10.0.0.1:7"⟩⟩), ("handshake", ⟨4, ⟨"10.0.0.1:7"⟩⟩)] (by decide)

/-- C8, the claim as stated fails: after two handshakes from `10.0.0.1:7` that address is
in the listing, and after its `"close"` it is still there. -/
theorem close_leaves_duplicate_listed :
    "10.0.0.1:7" ∈ GetAllClientInfo (dispatchAll []
        [("handshake", ⟨1, ⟨"10.0.0.1:7"⟩⟩), ("handshake", ⟨2, ⟨"10.0.0.1:7"⟩⟩)]) ∧
    "10.0.0.1:7" ∈ GetAllClientInfo (serverPacketSystemHandler "close" ⟨3, ⟨"10.0.0.1:7"⟩⟩
        (dispatchAll []
          [("handshake", ⟨1, ⟨"10.0.0.1:7"⟩⟩), ("handshake", ⟨2, ⟨"10.0.0.1:7"⟩⟩)])).1 := by
  decide

/-- C8, amended: for every registry reached from the empty one by control packets and
every address `a` whose `String()` occurs exactly once in `GetAllClientInfo()`, after
the server processes `"close"` from `a` the listing no longer contains that string. -/
theorem close_removes_from_listing (packets : List (String × AddrPtr)) (a : AddrPtr)
    (hone : (GetAllClientInfo (dispatchAll [] packets)).count a.val.str = 1) :
    a.val.str ∉
      GetAllClientInfo (serverPacketSystemHandler "close" a (dispatchAll [] packets)).1 :=
  close_single_occurrence a _ hone

/-- Witness for C8: two clients are registered and the first closes. -/
theorem close_removes_from_listing_witness :
    "10.0.0.1:7" ∉ GetAllClientInfo (serverPacketSystemHandler "close" ⟨3, ⟨"10.0.0.1:7"⟩⟩
        (dispatchAll []
          [("handshake", ⟨1, ⟨"10.0.0.1:7"⟩⟩), ("handshake", ⟨2, ⟨"10.0.0.2:7"⟩⟩)])).1 :=
  close_removes_from_listing
    [("handshake", ⟨1, ⟨"10.0.0.1:7"⟩⟩), ("handshake", ⟨2, ⟨"10.0.0.2:7"⟩⟩)]
    ⟨3, ⟨"10.0.0.1:7"⟩⟩ (by decide)

/-- C9: evaluation of the client loop, session open, at the datagram `not json`, which
`json.Unmarshal` rejects, followed by a valid packet. The claim asks for the bad
datagram to be dropped and the loop to go on to the next read; `readFromConn` calls
`log.Fatal`, the process ends at the first datagram and the valid packet is never
read. -/
theorem Receive_malformed_ends_process :
    (sampleJson.Unmarshal (garbageDatagram.take 2048) Packet.zero).2 ≠ none ∧
    Receive sampleJson true ⟨false⟩ [.ok garbageDatagram, .ok chatDatagram] =
      (⟨false⟩, [],
        .fatal "error on json:invalid character 'o' in literal null (expecting 'u')") := by
  refine ⟨by decide, by rfl⟩

/-- X8: what the client loop does, session open, on a datagram that `json.Unmarshal` fails
to decode: `readFromConn` reaches `log.Fatal` before its `return packet, err`, so the
process ends with the message `error on json:` followed by the error, the handler is
not called, nothing is written, and no later read takes place. -/
theorem Receive_malformed_is_fatal (J : Json) (wg : Bool) (s : ClientState)
    (datagram : Bytes) (rest : List ConnRead) (err : String)
    (hopen : s.isConnClose = false)
    (hbad : (J.Unmarshal (datagram.take 2048) Packet.zero).2 = some err) :
    Receive J wg s (.ok datagram :: rest) = (s, [], .fatal ("error on json:" ++ err)) := by
  have hread : readFromConn J s (.ok datagram) = .error ("error on json:" ++ err) := by
    simp only [readFromConn, hopen, Bool.false_eq_true, if_false]
    split
    · next p e heq => rw [heq] at hbad; simp at hbad; simp [hbad]
    · next p heq => rw [heq] at hbad; simp at hbad
  simp [Receive, ReceiveBody, hopen, hread]

/-- Witness for X8: the open client reads `not json`. -/
theorem Receive_malformed_is_fatal_witness :
    Receive sampleJson false ⟨false⟩ [.ok garbageDatagram] =
      (⟨false⟩, [],
        .fatal ("error on json:" ++ "invalid character 'o' in literal null (expecting 'u')")) :=
  Receive_malformed_is_fatal sampleJson false ⟨false⟩ garbageDatagram []
    "invalid character 'o' in literal null (expecting 'u')" rfl (by decide)

/-- C10: evaluation of one pass of the server loop at the datagram
`{"Type":"system","Data":"handshake","Type":1}` from `10.0.0.9:7`, with an empty
registry. `json.Unmarshal` returns an error, `readFromSocket` drops it, and the fields
stored before the error are dispatched: the sender is registered and the handler is
called. -/
theorem listenerBody_undecoded_changes_registry :
    (sampleJson.Unmarshal (mistypedDatagram.take 2048) Packet.zero).2 ≠ none ∧
    listenerBody sampleJson ⟨some 1, [], false, false⟩
        (.ok mistypedDatagram ⟨1, ⟨"10.0.0.9:7"⟩⟩) =
      (⟨some 1, [⟨1, ⟨"10.0.0.9:7"⟩⟩], false, false⟩,
        [.handler ⟨1, ⟨"10.0.0.9:7"⟩⟩ ⟨"system", "handshake"⟩], .next) := by
  refine ⟨by decide, by rfl⟩

/-! ### Further properties of the receive loops and of the sends -/

/-- The server control dispatcher always returns 0, so the `== 1` test of `listener`
never holds. -/
theorem serverPacketSystemHandler_returns_zero (data : String) (addr : AddrPtr)
    (addrs : List AddrPtr) : (serverPacketSystemHandler data addr addrs).2 = 0 := by
  unfold serverPacketSystemHandler
  split
  · split <;> rfl
  · split <;> rfl

theorem listenerBody_ok (J : Json) (s : ServerState) (datagram : Bytes) (addr : AddrPtr)
    (res : Bytes) (hopen : s.isServerClose = false)
    (hres : J.Marshal (J.Unmarshal (datagram.take 2048) Packet.zero).1 = .ok res) :
    listenerBody J s (.ok datagram addr) =
      ({ s with addrs :=
          if (J.Unmarshal (datagram.take 2048) Packet.zero).1.Type_ = "system" then
            (serverPacketSystemHandler (J.Unmarshal (datagram.take 2048) Packet.zero).1.Data
              addr s.addrs).1
          else s.addrs },
        (if s.logger then [ServerEvent.logger res] else []) ++
          [.handler addr (J.Unmarshal (datagram.take 2048) Packet.zero).1],
        .next) := by
  obtain ⟨sock, addrs, closed, logger⟩ := s
  simp only at hopen
  subst hopen
  have hzero := serverPacketSystemHandler_returns_zero
    (J.Unmarshal (datagram.take 2048) Packet.zero).1.Data addr addrs
  cases logger <;>
    by_cases ht : (J.Unmarshal (datagram.take 2048) Packet.zero).1.Type_ = "system" <;>
    simp [listenerBody, readFromSocket, hres, ht, hzero]

/-- X1: one pass of the server loop on a datagram, server open: whatever `json.Unmarshal`
left in `packet` is logged (when a logger is set), applied to the registry when its
`Type` is `"system"`, and then handed to the handler in every case; the loop goes on. -/
theorem listenerBody_received (J : Json) (s : ServerState) (datagram : Bytes) (addr : AddrPtr)
    (res : Bytes) (hopen : s.isServerClose = false)
    (hres : J.Marshal (J.Unmarshal (datagram.take 2048) Packet.zero).1 = .ok res) :
    listenerBody J s (.ok datagram addr) =
      ({ s with addrs :=
          if (J.Unmarshal (datagram.take 2048) Packet.zero).1.Type_ = "system" then
            (serverPacketSystemHandler (J.Unmarshal (datagram.take 2048) Packet.zero).1.Data
              addr s.addrs).1
          else s.addrs },
        (if s.logger then [ServerEvent.logger res] else []) ++
          [.handler addr (J.Unmarshal (datagram.take 2048) Packet.zero).1],
        .next) :=
  listenerBody_ok J s datagram addr res hopen hres

/-- Witness: the server without logger receives `not json`. -/
theorem listenerBody_received_witness :
    listenerBody sampleJson ⟨some 1, [], false, false⟩
        (.ok garbageDatagram ⟨1, ⟨"10.0.0.1:7"⟩⟩) =
      (⟨some 1, [], false, false⟩, [.handler ⟨1, ⟨"10.0.0.1:7"⟩⟩ Packet.zero], .next) :=
  listenerBody_received sampleJson ⟨some 1, [], false, false⟩ garbageDatagram
    ⟨1, ⟨"10.0.0.1:7"⟩⟩ (ascii "\x7b\"Type\":\"\",\"Data\":\"\"\x7d") rfl rfl

/-- X2: one pass of the server loop on a failed read, server open: two lines are printed,
nothing else happens and the loop goes on. -/
theorem listenerBody_read_error (J : Json) (s : ServerState) (msg : String)
    (hopen : s.isServerClose = false) :
    listenerBody J s (.err msg) =
      (s, [.print ["One reading buff", msg], .print ["error on socket", msg]], .next) := by
  simp [listenerBody, readFromSocket, hopen]

/-- Witness: a failed read on an open server. -/
theorem listenerBody_read_error_witness :
    listenerBody sampleJson ⟨some 1, [], false, false⟩ (.err "timeout") =
      (⟨some 1, [], false, false⟩,
        [.print ["One reading buff", "timeout"], .print ["error on socket", "timeout"]],
        .next) :=
  listenerBody_read_error sampleJson ⟨some 1, [], false, false⟩ "timeout" rfl

/-- X7: a pass of the server loop never ends in `log.Fatal`, and never meets a nil address
with a nil error. -/
theorem listenerBody_reachable (J : Json) (s : ServerState) (r : ReadFrom) :
    (listenerBody J s r).2.2 = .next ∨ (listenerBody J s r).2.2 = .brk ∨
      (listenerBody J s r).2.2 = .ret := by
  cases hc : s.isServerClose
  · cases r with
    | err msg => simp [listenerBody, readFromSocket, hc]
    | ok datagram addr =>
      have hzero := serverPacketSystemHandler_returns_zero
        (J.Unmarshal (datagram.take 2048) Packet.zero).1.Data addr s.addrs
      cases hl : s.logger <;>
        by_cases ht : (J.Unmarshal (datagram.take 2048) Packet.zero).1.Type_ = "system" <;>
        cases hm : J.Marshal (J.Unmarshal (datagram.take 2048) Packet.zero).1 <;>
        simp [listenerBody, readFromSocket, hc, hl, ht, hm, hzero]
  · simp [listenerBody, readFromSocket, hc]

/-- X3: the server loop on a datagram whose decoded `Type` is not `"system"`, decode error or
not: the state is unchanged, the logger (if set) and the handler are called, and the
rest of the reads is processed from the same state. -/
theorem listener_skips_non_control (J : Json) (s : ServerState) (datagram : Bytes)
    (addr : AddrPtr) (res : Bytes) (rest : List ReadFrom)
    (hopen : s.isServerClose = false)
    (hres : J.Marshal (J.Unmarshal (datagram.take 2048) Packet.zero).1 = .ok res)
    (htype : (J.Unmarshal (datagram.take 2048) Packet.zero).1.Type_ ≠ "system") :
    listener J s (.ok datagram addr :: rest) =
      ((listener J s rest).1,
        ((if s.logger then [ServerEvent.logger res] else []) ++
          [.handler addr (J.Unmarshal (datagram.take 2048) Packet.zero).1]) ++
          (listener J s rest).2.1,
        (listener J s rest).2.2) := by
  obtain ⟨sock, addrs, closed, logger⟩ := s
  simp only at hopen
  subst hopen
  have hbody := listenerBody_ok J ⟨sock, addrs, false, logger⟩ datagram addr res rfl hres
  simp only [htype, if_false] at hbody
  simp [listener, hbody]

/-- Witness: `not json` followed by a handshake; the handshake is handled from the
unchanged state. -/
theorem listener_skips_non_control_witness :
    listener sampleJson ⟨some 1, [], false, false⟩
        [.ok garbageDatagram ⟨1, ⟨"10.0.0.1:7"⟩⟩, .ok handshakeDatagram ⟨2, ⟨"10.0.0.2:7"⟩⟩] =
      ((listener sampleJson ⟨some 1, [], false, false⟩
          [.ok handshakeDatagram ⟨2, ⟨"10.0.0.2:7"⟩⟩]).1,
        ([] ++ [.handler ⟨1, ⟨"10.0.0.1:7"⟩⟩ Packet.zero]) ++
          (listener sampleJson ⟨some 1, [], false, false⟩
            [.ok handshakeDatagram ⟨2, ⟨"10.0.0.2:7"⟩⟩]).2.1,
        (listener sampleJson ⟨some 1, [], false, false⟩
          [.ok handshakeDatagram ⟨2, ⟨"10.0.0.2:7"⟩⟩]).2.2) :=
  listener_skips_non_control sampleJson ⟨some 1, [], false, false⟩ garbageDatagram
    ⟨1, ⟨"10.0.0.1:7"⟩⟩ (ascii "\x7b\"Type\":\"\",\"Data\":\"\"\x7d")
    [.ok handshakeDatagram ⟨2, ⟨"10.0.0.2:7"⟩⟩] rfl rfl (by decide)

/-- X4: one pass of the client loop on a datagram that decodes without error, session open:
the handler is called with the packet whatever its `Type`. A `"system"` packet first
goes through the control dispatcher: `"close"` writes the close packet, sets the flag
and closes the connection, any other verb does nothing. -/
theorem ReceiveBody_decoded (J : Json) (s : ClientState) (datagram bytes : Bytes)
    (packet : Packet) (hopen : s.isConnClose = false)
    (hdec : J.Unmarshal (datagram.take 2048) Packet.zero = (packet, none))
    (hclose : J.Marshal { Type_ := "system", Data := "close" } = .ok bytes) :
    ReceiveBody J s (.ok datagram) =
      if packet.Type_ = "system" ∧ packet.Data = "close" then
        ({ isConnClose := true }, [.write bytes, .close, .handler packet], .next)
      else (s, [.handler packet], .next) := by
  by_cases ht : packet.Type_ = "system" <;> by_cases hd : packet.Data = "close" <;>
    simp [ReceiveBody, readFromConn, clientPacketSystemHandler, CloseConnection, hopen, hdec,
      hclose, ht, hd]

/-- Witness: the open client reads `{"Type":"system","Data":"close"}`. -/
theorem ReceiveBody_decoded_witness :
    ReceiveBody sampleJson ⟨false⟩ (.ok closeDatagram) =
      if (⟨"system", "close"⟩ : Packet).Type_ = "system" ∧
          (⟨"system", "close"⟩ : Packet).Data = "close" then
        ({ isConnClose := true },
          [.write closeDatagram, .close, .handler ⟨"system", "close"⟩], .next)
      else (⟨false⟩, [.handler ⟨"system", "close"⟩], .next) :=
  ReceiveBody_decoded sampleJson ⟨false⟩ closeDatagram closeDatagram ⟨"system", "close"⟩
    rfl rfl rfl

theorem excluding_foldl (res : Bytes) (addr : AddrPtr) (addrs : List AddrPtr)
    (acc : List ServerEvent) :
    addrs.foldl
        (fun out elemAddr =>
          if addr.ptr ≠ elemAddr.ptr then out ++ [ServerEvent.writeTo res addr.val] else out)
        acc =
      acc ++ List.replicate (addrs.filter (fun e => decide (addr.ptr ≠ e.ptr))).length
        (ServerEvent.writeTo res addr.val) := by
  induction addrs generalizing acc with
  | nil => simp
  | cons x l ih =>
    rw [List.foldl_cons, ih]
    by_cases h : addr.ptr = x.ptr
    · simp [h]
    · simp [h, List.replicate_succ]

/-- X5: what `SendToAllExcludingItselfClient(str, packetType, addr)` sends: one datagram for
every registry entry whose pointer differs from `addr`, each of them addressed to
`*addr` itself. -/
theorem SendToAllExcludingItselfClient_events (J : Json) (s : ServerState) (sock : Nat)
    (str packetType : String) (addr : AddrPtr) (res : Bytes)
    (hinst : s.instance_ = some sock)
    (hres : J.Marshal { Type_ := packetType, Data := str } = .ok res) :
    SendToAllExcludingItselfClient J s str packetType addr =
      .ok (List.replicate (s.addrs.filter (fun e => decide (addr.ptr ≠ e.ptr))).length
        (ServerEvent.writeTo res addr.val)) := by
  simp only [SendToAllExcludingItselfClient, hinst, hres]
  rw [excluding_foldl]
  simp

/-- Witness: three peers, the sender's pointer is not one of the registry's. -/
theorem SendToAllExcludingItselfClient_events_witness :
    SendToAllExcludingItselfClient sampleJson
        ⟨some 1, [⟨1, ⟨"10.0.0.1:7"⟩⟩, ⟨2, ⟨"10.0.0.2:7"⟩⟩, ⟨3, ⟨"10.0.0.3:7"⟩⟩], false, false⟩
        "hello" "chat" ⟨4, ⟨"10.0.0.1:7"⟩⟩ =
      .ok (List.replicate
        (([⟨1, ⟨"10.0.0.1:7"⟩⟩, ⟨2, ⟨"10.0.0.2:7"⟩⟩, ⟨3, ⟨"10.0.0.3:7"⟩⟩] : List AddrPtr).filter
          (fun e => decide ((⟨4, ⟨"10.0.0.1:7"⟩⟩ : AddrPtr).ptr ≠ e.ptr))).length
        (ServerEvent.writeTo chatDatagram ⟨"10.0.0.1:7"⟩)) :=
  SendToAllExcludingItselfClient_events sampleJson
    ⟨some 1, [⟨1, ⟨"10.0.0.1:7"⟩⟩, ⟨2, ⟨"10.0.0.2:7"⟩⟩, ⟨3, ⟨"10.0.0.3:7"⟩⟩], false, false⟩ 1
    "hello" "chat" ⟨4, ⟨"10.0.0.1:7"⟩⟩ chatDatagram rfl rfl

/-- X6: a handshake from an address whose `String()` is not in the registry, followed by a
close from that address, gives back the registry as it was. -/
theorem handshake_then_close (addrs : List AddrPtr) (a b : AddrPtr)
    (hsame : b.val.str = a.val.str)
    (hfresh : a.val.str ∉ GetAllClientInfo addrs) :
    (serverPacketSystemHandler "close" b
      (serverPacketSystemHandler "handshake" a addrs).1).1 = addrs := by
  have hnew : (serverPacketSystemHandler "handshake" a addrs).1 = addrs ++ [a] := by
    by_cases hnil : addrs = [] <;> simp [serverPacketSystemHandler, hnil]
  rw [hnew, close_eq_eraseP, List.eraseP_append_right]
  · simp [List.eraseP_cons, hsame]
  · intro y hy
    rw [GetAllClientInfo_eq_map] at hfresh
    have hne : ¬ b.val.str = y.val.str := by
      intro h
      apply hfresh
      rw [← hsame, h]
      exact List.mem_map_of_mem (fun c => c.val.str) hy
    simpa using hne

/-- Witness: a second client handshakes and closes. -/
theorem handshake_then_close_witness :
    (serverPacketSystemHandler "close" ⟨3, ⟨"10.0.0.2:7"⟩⟩
      (serverPacketSystemHandler "handshake" ⟨2, ⟨"10.0.0.2:7"⟩⟩ [⟨1, ⟨"10.0.0.1:7"⟩⟩]).1).1 =
      [⟨1, ⟨"10.0.0.1:7"⟩⟩] :=
  handshake_then_close [⟨1, ⟨"10.0.0.1:7"⟩⟩] ⟨2, ⟨"10.0.0.2:7"⟩⟩ ⟨3, ⟨"10.0.0.2:7"⟩⟩ rfl
    (by decide)

end Udp
